import Mathlib

/-!
Verification of the star_distance repository: a shallow embedding of the
numeric pipeline of `src/star_distance.py` (function `nearby_stars` plus the
module entry point) and of `src/star_distance_gui.py`
(`NearbyStarsApp.plot_nearby_stars`), together with theorems settling the
specification's claims about it.

Machine floating-point values are embedded as exact real numbers; the one
place where IEEE semantics differ observably from real arithmetic on ordinary
inputs (the `0.0/0.0` produced by the degenerate one-point sample in the
visual-attribute formulas) is modelled separately and exactly by the `FP`
type below, whose values at the relevant inputs are all exactly representable
rationals, so no rounding needs to be modelled.
-/

namespace StarDistance

noncomputable section

/-- One row of the Gaia DR2 result table: `source_id, ra, dec, parallax`
(ra, dec in degrees, parallax nullable — `parallax IS NOT NULL` is part of
the query, but the engine is defined on arbitrary rows). -/
structure CatalogRow where
  source_id : Int
  ra : ℝ
  dec : ℝ
  parallax : Option ℝ

/-- The one varying datum of the ADQL query built at `star_distance.py:17`:
the parallax threshold interpolated into `WHERE parallax >= {1 / max_distance_pc}`. -/
structure QueryDescriptor where
  min_parallax : ℝ

/-- Query builder, `star_distance.py:14-18`: the interpolated threshold is
`1 / max_distance_pc`. -/
def build_query (max_distance_pc : ℝ) : QueryDescriptor :=
  ⟨1 / max_distance_pc⟩

/-- Semantics of the query's WHERE clause
`parallax >= min_parallax AND parallax IS NOT NULL` on one row's parallax. -/
def row_selected (q : QueryDescriptor) (parallax : Option ℝ) : Prop :=
  match parallax with
  | some p => q.min_parallax ≤ p
  | none => False

/-- Degrees to radians, `np.radians` at `star_distance.py:32-33`. -/
def degToRad (d : ℝ) : ℝ :=
  d * (Real.pi / 180)

/-- One projected star: distance in parsecs and the planar coordinates,
`star_distance.py:29,36-37`. -/
structure ProjectedPoint where
  distance_pc : ℝ
  x : ℝ
  y : ℝ

/-- Projection of one row with (valid) parallax value `p`,
`star_distance.py:29,32-33,36-37`: `distance = 1/p`,
`x = distance * cos(dec_rad) * cos(ra_rad)`,
`y = distance * cos(dec_rad) * sin(ra_rad)`. -/
def projectRow (r : CatalogRow) (p : ℝ) : ProjectedPoint :=
  { distance_pc := 1 / p
    x := (1 / p) * Real.cos (degToRad r.dec) * Real.cos (degToRad r.ra)
    y := (1 / p) * Real.cos (degToRad r.dec) * Real.sin (degToRad r.ra) }

/-- The validity mask `valid_parallaxes = parallaxes > 0` of
`star_distance.py:28`, as a partial extraction of the parallax value: a null
parallax or one that is not `> 0` yields `none`. -/
def keptParallax (r : CatalogRow) : Option ℝ :=
  match r.parallax with
  | some p => if 0 < p then some p else none
  | none => none

/-- The rows that survive the `parallaxes > 0` mask of `star_distance.py:28`. -/
def keptRows (rows : List CatalogRow) : List CatalogRow :=
  rows.filter fun r =>
    match r.parallax with
    | some p => if 0 < p then true else false
    | none => false

/-- Distance & projection engine, `star_distance.py:27-37`: each row passing
the `parallax > 0` mask contributes one projected point; the others are
dropped silently. -/
def project (rows : List CatalogRow) : List ProjectedPoint :=
  rows.filterMap fun r => (keptParallax r).map (projectRow r)

/-- `max_star_size = 100`, `star_distance.py:50`. -/
def max_star_size : ℝ := 100

/-- `min_star_size = 10`, `star_distance.py:51`. -/
def min_star_size : ℝ := 10

/-- `distances.min()` over a sample, `star_distance.py:52` (0 is a placeholder
for the empty sample, on which numpy's reduction raises instead). -/
def sample_min : List ProjectedPoint → ℝ
  | [] => 0
  | p :: ps => (ps.map ProjectedPoint.distance_pc).foldl min p.distance_pc

/-- `distances.max()` over a sample, `star_distance.py:52`. -/
def sample_max : List ProjectedPoint → ℝ
  | [] => 0
  | p :: ps => (ps.map ProjectedPoint.distance_pc).foldl max p.distance_pc

/-- The normalization `(distances - distances.min()) / (distances.max() - distances.min())`
of `star_distance.py:52-53`, at one distance value. -/
def normalizedDist (dmin dmax d : ℝ) : ℝ :=
  (d - dmin) / (dmax - dmin)

/-- Star marker size, `star_distance.py:52`:
`(1 - normalized) * (max_star_size - min_star_size) + min_star_size`. -/
def star_size (dmin dmax d : ℝ) : ℝ :=
  (1 - normalizedDist dmin dmax d) * (max_star_size - min_star_size) + min_star_size

/-- The scalar fed to the colormap at `star_distance.py:53`:
`plt.cm.coolwarm(1 - normalized)` — the colormap itself is the rendering
toolkit's, so only its argument is modelled. -/
def color_arg (dmin dmax d : ℝ) : ℝ :=
  1 - normalizedDist dmin dmax d

/-- A projected point together with its derived visual attributes,
`star_distance.py:52-54`. -/
structure VisualPoint where
  point : ProjectedPoint
  size : ℝ
  colorArg : ℝ

/-- Visual attribute mapper, `star_distance.py:50-53`: sizes and colormap
arguments for a whole sample. On the empty sample `distances.min()` raises
(numpy zero-size reduction), modelled as `none`. -/
def map_attributes (pts : List ProjectedPoint) : Option (List VisualPoint) :=
  match pts with
  | [] => none
  | _ :: _ =>
    some (pts.map fun pt =>
      ⟨pt, star_size (sample_min pts) (sample_max pts) pt.distance_pc,
        color_arg (sample_min pts) (sample_max pts) pt.distance_pc⟩)

/-- Outcome of one invocation of `nearby_stars` after the catalog returns:
the early return printing "No nearby stars found" (`star_distance.py:22-24`),
an uncaught exception later in the body, or a rendered scatter. -/
inductive EngineResult where
  | emptySample : EngineResult
  | fault : EngineResult
  | render : List VisualPoint → EngineResult

/-- The post-query body of `nearby_stars`, `star_distance.py:22-54`: the
early `EmptySample` return fires exactly when `len(result_table) == 0`;
otherwise the projection and the attribute mapper run and the scatter is
rendered (a fault in the mapper propagates as a raised exception). -/
def pipeline (rows : List CatalogRow) : EngineResult :=
  if rows.length = 0 then EngineResult.emptySample
  else
    match map_attributes (project rows) with
    | none => EngineResult.fault
    | some vps => EngineResult.render vps

/-- Axis half-width of the rendered plot, `star_distance.py:57-58`:
`set_xlim`/`set_ylim` to `±max_distance.to(u.pc).value`. -/
def axis_bound (max_distance_pc : ℝ) : ℝ := max_distance_pc

/-- Parsecs in one light-year, astropy's `(1 * u.lyr).to(u.pc).value` at
`star_distance.py:11`: a light-year is 9460730472580800 m, a parsec is
(648000/π)·149597870700 m (IAU 2015), so the ratio is exactly
9460730472580800·π / (648000·149597870700) ≈ 0.3066. Only its sign matters
to the claims. -/
def lyr_in_pc : ℝ :=
  9460730472580800 * Real.pi / (648000 * 149597870700)

/-- `max_distance.to(u.pc).value` for `max_distance = v * u.lyr`,
`star_distance.py:86,11`. -/
def lyr_to_pc (v : ℝ) : ℝ := v * lyr_in_pc

end

/-- Value of a decimal digit character. -/
def digitVal (c : Char) : ℕ := c.toNat - 48

/-- Natural number denoted by a digit string. -/
def digitsToNat (cs : List Char) : ℕ :=
  cs.foldl (fun n c => n * 10 + digitVal c) 0

/-- Models Python's builtin `float()` as used at `star_distance.py:85` and
`star_distance_gui.py:40` on plain decimal literals (optional sign, digits,
optional fractional part): `none` models the `ValueError` raised on
non-numeric text such as "abc". Exponents, inf/nan spellings and surrounding
whitespace are beyond what the claims exercise and parse as `none`. -/
def parseFloat (s : String) : Option ℚ :=
  let cs := s.data
  let signBody : Bool × List Char :=
    match cs with
    | '-' :: r => (true, r)
    | '+' :: r => (false, r)
    | r => (false, r)
  let neg := signBody.1
  let body := signBody.2
  let intPart := body.takeWhile Char.isDigit
  let rest := body.dropWhile Char.isDigit
  let magnitude : Option ℚ :=
    match rest with
    | [] => if intPart.isEmpty then none else some (digitsToNat intPart : ℚ)
    | '.' :: frac =>
      if frac.all Char.isDigit && !(intPart.isEmpty && frac.isEmpty) then
        some ((digitsToNat intPart : ℚ) + (digitsToNat frac : ℚ) / (10 : ℚ) ^ frac.length)
      else none
    | _ => none
  magnitude.map fun m => if neg then -m else m

noncomputable section

/-- Module entry of `star_distance.py:84-88` up to query issuance: parse the
typed text with `float()`, convert light-years to parsecs, and build the
query that is then launched. `none` models the uncaught `ValueError` (no
query issued); `some q` means the query with threshold `q.min_parallax` is
issued to the catalog. There is no sign or range check anywhere on the path. -/
def script_entry (s : String) : Option QueryDescriptor :=
  (parseFloat s).map fun v => build_query (lyr_to_pc (v : ℝ))

end

/-- The literal ADQL f-string template of `star_distance.py:14-18`, as a
function of the text the threshold is formatted to (the function body is
indented by one tab, which the triple-quoted literal retains). -/
def script_query_string (t : String) : String :=
  "\n\tSELECT source_id, ra, dec, parallax\n\tFROM gaiadr2.gaia_source\n\tWHERE parallax >= "
    ++ t ++ " AND parallax IS NOT NULL\n\t"

/-- The literal ADQL f-string template of `star_distance_gui.py:45-49`: the
method body is indented by two tabs, which the triple-quoted literal retains. -/
def gui_query_string (t : String) : String :=
  "\n\t\tSELECT source_id, ra, dec, parallax\n\t\tFROM gaiadr2.gaia_source\n\t\tWHERE parallax >= "
    ++ t ++ " AND parallax IS NOT NULL\n\t\t"

/-- Erase the indentation whitespace (tabs and newlines) of a query string,
leaving the ADQL-significant characters. -/
def stripWS (s : String) : String :=
  String.mk (s.data.filter fun c => !(c == '\t' || c == '\n'))

/-- An IEEE-754 double whose payload, when it is an ordinary number, happens
to be exactly representable (which is the case for every value arising in the
degenerate one-point-sample evaluation of `star_distance.py:52-53`: they are
all small integers or quotients thereof, and every operation there is exact,
so no rounding needs to be modelled). -/
inductive FP where
  | num : ℚ → FP
  | nan : FP
  | inf : Bool → FP
deriving DecidableEq

/-- IEEE subtraction on the modelled values (exact on finite operands). -/
def FP.sub : FP → FP → FP
  | FP.num a, FP.num b => FP.num (a - b)
  | FP.inf s, FP.num _ => FP.inf s
  | FP.num _, FP.inf s => FP.inf (!s)
  | FP.inf s, FP.inf t => if s = t then FP.nan else FP.inf s
  | _, _ => FP.nan

/-- IEEE addition on the modelled values (exact on finite operands). -/
def FP.add : FP → FP → FP
  | FP.num a, FP.num b => FP.num (a + b)
  | FP.inf s, FP.num _ => FP.inf s
  | FP.num _, FP.inf s => FP.inf s
  | FP.inf s, FP.inf t => if s = t then FP.inf s else FP.nan
  | _, _ => FP.nan

/-- IEEE multiplication on the modelled values (exact on finite operands). -/
def FP.mul : FP → FP → FP
  | FP.num a, FP.num b => FP.num (a * b)
  | FP.inf s, FP.num b =>
    if b = 0 then FP.nan else FP.inf (s == decide (0 < b))
  | FP.num a, FP.inf s =>
    if a = 0 then FP.nan else FP.inf (s == decide (0 < a))
  | FP.inf s, FP.inf t => FP.inf (s == t)
  | _, _ => FP.nan

/-- IEEE division on the modelled values: in particular `0.0/0.0` is NaN and
every arithmetic operation with a NaN operand is NaN. -/
def FP.div : FP → FP → FP
  | FP.num a, FP.num b =>
    if b = 0 then
      if a = 0 then FP.nan
      else FP.inf (decide (0 < a))
    else FP.num (a / b)
  | FP.num _, FP.inf _ => FP.num 0
  | FP.inf s, FP.num b => FP.inf (s == decide (0 ≤ b))
  | _, _ => FP.nan

/-- The normalization `(d - dmin) / (dmax - dmin)` of `star_distance.py:52-53`
under IEEE semantics. -/
def normalizedF (dmin dmax d : FP) : FP :=
  (d.sub dmin).div (dmax.sub dmin)

/-- The size expression of `star_distance.py:52`,
`(1 - normalized) * (max_star_size - min_star_size) + min_star_size`,
under IEEE semantics. -/
def star_sizeF (dmin dmax d : FP) : FP :=
  (((FP.num 1).sub (normalizedF dmin dmax d)).mul ((FP.num 100).sub (FP.num 10))).add
    (FP.num 10)

/-- The colormap argument of `star_distance.py:53`, `1 - normalized`, under
IEEE semantics. -/
def color_argF (dmin dmax d : FP) : FP :=
  (FP.num 1).sub (normalizedF dmin dmax d)

noncomputable section

/-- Query builder of the GUI variant, `star_distance_gui.py:44-49`: the
interpolated threshold is again `1 / max_distance_pc`. -/
def gui_build_query (max_distance_pc : ℝ) : QueryDescriptor :=
  ⟨1 / max_distance_pc⟩

/-- Projection of one row in the GUI variant, `star_distance_gui.py:65,68-69,72-73`. -/
def gui_projectRow (r : CatalogRow) (p : ℝ) : ProjectedPoint :=
  { distance_pc := 1 / p
    x := (1 / p) * Real.cos (degToRad r.dec) * Real.cos (degToRad r.ra)
    y := (1 / p) * Real.cos (degToRad r.dec) * Real.sin (degToRad r.ra) }

/-- The `valid_parallaxes = parallaxes > 0` mask of `star_distance_gui.py:64`. -/
def gui_keptParallax (r : CatalogRow) : Option ℝ :=
  match r.parallax with
  | some p => if 0 < p then some p else none
  | none => none

/-- Distance and projection stage of the GUI variant, `star_distance_gui.py:63-73`. -/
def gui_project (rows : List CatalogRow) : List ProjectedPoint :=
  rows.filterMap fun r => (gui_keptParallax r).map (gui_projectRow r)

/-- Star marker size of the GUI variant, `star_distance_gui.py:85-87`. -/
def gui_star_size (dmin dmax d : ℝ) : ℝ :=
  (1 - (d - dmin) / (dmax - dmin)) * (100 - 10) + 10

/-- Colormap argument of the GUI variant, `star_distance_gui.py:88`. -/
def gui_color_arg (dmin dmax d : ℝ) : ℝ :=
  1 - (d - dmin) / (dmax - dmin)

/-- Visual attribute stage of the GUI variant, `star_distance_gui.py:85-88`. -/
def gui_map_attributes (pts : List ProjectedPoint) : Option (List VisualPoint) :=
  match pts with
  | [] => none
  | _ :: _ =>
    some (pts.map fun pt =>
      ⟨pt, gui_star_size (sample_min pts) (sample_max pts) pt.distance_pc,
        gui_color_arg (sample_min pts) (sample_max pts) pt.distance_pc⟩)

/-- Post-query body of `NearbyStarsApp.plot_nearby_stars`,
`star_distance_gui.py:53-89`: same early-return check on
`len(result_table) == 0`, then projection, attributes, and drawing. -/
def gui_pipeline (rows : List CatalogRow) : EngineResult :=
  if rows.length = 0 then EngineResult.emptySample
  else
    match gui_map_attributes (gui_project rows) with
    | none => EngineResult.fault
    | some vps => EngineResult.render vps

/-- Per-click entry of the GUI variant, `star_distance_gui.py:39-51`, up to
query issuance: `float()` on the text field, light-years to parsecs, query
built and launched; no sign or range check. -/
def gui_entry (s : String) : Option QueryDescriptor :=
  (parseFloat s).map fun v => gui_build_query (lyr_to_pc (v : ℝ))

end

/-- Every point of `project rows` comes from a row of `rows` whose parallax
is present and positive, and is that row's `projectRow` image. -/
lemma mem_project {rows : List CatalogRow} {pt : ProjectedPoint} (h : pt ∈ project rows) :
    ∃ r ∈ rows, ∃ p : ℝ, r.parallax = some p ∧ 0 < p ∧ pt = projectRow r p := by
  simp only [project, List.mem_filterMap] at h
  obtain ⟨r, hr, hf⟩ := h
  refine ⟨r, hr, ?_⟩
  cases hp : r.parallax with
  | none => simp [keptParallax, hp] at hf
  | some p =>
    by_cases h0 : 0 < p
    · refine ⟨p, rfl, h0, ?_⟩
      simp [keptParallax, hp, h0] at hf
      exact hf.symm
    · simp [keptParallax, hp, h0] at hf

/-- The squared planar radius of a projected row is the squared distance
scaled by the squared cosine of the declination. -/
lemma projectRow_sq (r : CatalogRow) (p : ℝ) :
    (projectRow r p).x ^ 2 + (projectRow r p).y ^ 2 =
      (1 / p) ^ 2 * Real.cos (degToRad r.dec) ^ 2 := by
  have h := Real.sin_sq_add_cos_sq (degToRad r.ra)
  simp only [projectRow]
  linear_combination (1 / p) ^ 2 * Real.cos (degToRad r.dec) ^ 2 * h

/-- The planar radius of a projected row never exceeds its distance. -/
lemma projectRow_sq_le (r : CatalogRow) (p : ℝ) :
    (projectRow r p).x ^ 2 + (projectRow r p).y ^ 2 ≤ (projectRow r p).distance_pc ^ 2 := by
  rw [projectRow_sq]
  have h1 := Real.cos_sq_le_one (degToRad r.dec)
  have h2 : (projectRow r p).distance_pc = 1 / p := rfl
  rw [h2]
  nlinarith [sq_nonneg (1 / p)]

/-- A declination within ±90 degrees lands within ±π/2 radians. -/
lemma degToRad_mem_Icc {d : ℝ} (h1 : -90 ≤ d) (h2 : d ≤ 90) :
    -(Real.pi / 2) ≤ degToRad d ∧ degToRad d ≤ Real.pi / 2 := by
  have hpi := Real.pi_pos
  constructor
  · have := mul_le_mul_of_nonneg_right h1 (by positivity : (0:ℝ) ≤ Real.pi / 180)
    simp only [degToRad]
    nlinarith
  · have := mul_le_mul_of_nonneg_right h2 (by positivity : (0:ℝ) ≤ Real.pi / 180)
    simp only [degToRad]
    nlinarith

/-- For a row with positive parallax and declination within ±90 degrees, the
planar radius equals the distance exactly when the declination is zero. -/
lemma projectRow_eq_iff (r : CatalogRow) (p : ℝ) (hp : 0 < p)
    (h1 : -90 ≤ r.dec) (h2 : r.dec ≤ 90) :
    (projectRow r p).x ^ 2 + (projectRow r p).y ^ 2 = (projectRow r p).distance_pc ^ 2 ↔
      r.dec = 0 := by
  have hpi := Real.pi_pos
  have hd : (projectRow r p).distance_pc = 1 / p := rfl
  have hd2 : (0:ℝ) < (1 / p) ^ 2 := by positivity
  obtain ⟨hD1, hD2⟩ := degToRad_mem_Icc h1 h2
  rw [projectRow_sq, hd]
  constructor
  · intro h
    have hcos2 : Real.cos (degToRad r.dec) ^ 2 = 1 :=
      mul_left_cancel₀ (ne_of_gt hd2) (h.trans (mul_one _).symm)
    have hcosnn : 0 ≤ Real.cos (degToRad r.dec) :=
      Real.cos_nonneg_of_mem_Icc ⟨hD1, hD2⟩
    have hfac : (Real.cos (degToRad r.dec) - 1) * (Real.cos (degToRad r.dec) + 1) = 0 := by
      linear_combination hcos2
    have hcos1 : Real.cos (degToRad r.dec) = 1 := by
      rcases mul_eq_zero.mp hfac with hh | hh
      · linarith
      · linarith
    have hD0 : degToRad r.dec = 0 :=
      (Real.cos_eq_one_iff_of_lt_of_lt (by linarith) (by linarith)).mp hcos1
    have hne : Real.pi / 180 ≠ 0 := by positivity
    rcases mul_eq_zero.mp hD0 with hh | hh
    · exact hh
    · exact absurd hh hne
  · intro h
    simp [degToRad, h]

/-- Every visual point of `map_attributes pts` carries its projected point
plus the size and colormap argument computed from the sample's own min/max. -/
lemma mem_map_attributes {pts : List ProjectedPoint} {vps : List VisualPoint}
    (h : map_attributes pts = some vps) {v : VisualPoint} (hv : v ∈ vps) :
    v.point ∈ pts ∧
    v.size = star_size (sample_min pts) (sample_max pts) v.point.distance_pc ∧
    v.colorArg = color_arg (sample_min pts) (sample_max pts) v.point.distance_pc := by
  cases pts with
  | nil => simp [map_attributes] at h
  | cons p ps =>
    simp only [map_attributes] at h
    have h' := Option.some.inj h
    subst h'
    simp only [List.mem_map] at hv
    obtain ⟨pt, hpt, rfl⟩ := hv
    exact ⟨hpt, rfl, rfl⟩

/-- The size formula is non-increasing in distance when the sample spread is
positive. -/
lemma star_size_anti {dmin dmax d1 d2 : ℝ} (hlt : dmin < dmax) (hd : d1 ≤ d2) :
    star_size dmin dmax d2 ≤ star_size dmin dmax d1 := by
  have hT : 0 < dmax - dmin := by linarith
  have hnd : (d1 - dmin) / (dmax - dmin) ≤ (d2 - dmin) / (dmax - dmin) :=
    (div_le_div_iff_of_pos_right hT).mpr (by linarith)
  simp only [star_size, normalizedDist, max_star_size, min_star_size]
  linarith

/-- The colormap argument is non-increasing in distance when the sample
spread is positive. -/
lemma color_arg_anti {dmin dmax d1 d2 : ℝ} (hlt : dmin < dmax) (hd : d1 ≤ d2) :
    color_arg dmin dmax d2 ≤ color_arg dmin dmax d1 := by
  have hT : 0 < dmax - dmin := by linarith
  have hnd : (d1 - dmin) / (dmax - dmin) ≤ (d2 - dmin) / (dmax - dmin) :=
    (div_le_div_iff_of_pos_right hT).mpr (by linarith)
  simp only [color_arg, normalizedDist]
  linarith

/-- Size ordering and colormap-argument ordering agree: both are affine in
the same normalized value. -/
lemma star_size_le_iff_color {dmin dmax d1 d2 : ℝ} :
    star_size dmin dmax d1 ≤ star_size dmin dmax d2 ↔
      color_arg dmin dmax d1 ≤ color_arg dmin dmax d2 := by
  simp only [star_size, color_arg, normalizedDist, max_star_size, min_star_size]
  constructor <;> intro h <;> linarith

/-- Whitespace stripping distributes over string append. -/
lemma stripWS_append (a b : String) : stripWS (a ++ b) = stripWS a ++ stripWS b := by
  cases a with
  | mk la =>
    cases b with
    | mk lb =>
      show String.mk ((la ++ lb).filter _) = String.mk (la.filter _ ++ lb.filter _)
      rw [List.filter_append]

/-- Claim C1: every kept row yields `distance_pc = 1/parallax` and the planar
coordinates `x = distance_pc * cos(dec_rad) * cos(ra_rad)`,
`y = distance_pc * cos(dec_rad) * sin(ra_rad)` with ra, dec converted from
degrees to radians; in particular (ra=0, dec=0, parallax=1) projects to
distance 1, x=1, y=0, and (ra=90, dec=0, parallax=1) to x=0, y=1 (exactly, in
the real-number embedding). -/
theorem projection_formulas_and_instances :
    (∀ rows : List CatalogRow, ∀ pt ∈ project rows, ∃ r ∈ rows, ∃ p : ℝ,
      r.parallax = some p ∧ 0 < p ∧ pt.distance_pc = 1 / p ∧
      pt.x = pt.distance_pc * Real.cos (degToRad r.dec) * Real.cos (degToRad r.ra) ∧
      pt.y = pt.distance_pc * Real.cos (degToRad r.dec) * Real.sin (degToRad r.ra)) ∧
    project [⟨0, 0, 0, some 1⟩] = [⟨1, 1, 0⟩] ∧
    project [⟨1, 90, 0, some 1⟩] = [⟨1, 0, 1⟩] := by
  refine ⟨?_, ?_, ?_⟩
  · intro rows pt hpt
    obtain ⟨r, hr, p, hp, h0, rfl⟩ := mem_project hpt
    exact ⟨r, hr, p, hp, h0, rfl, rfl, rfl⟩
  · simp [project, keptParallax, projectRow, degToRad]
  · have h90 : degToRad 90 = Real.pi / 2 := by simp only [degToRad]; ring
    have h0 : degToRad 0 = 0 := by simp [degToRad]
    simp [project, keptParallax, projectRow, h90, h0]

/-- Witness for C1: the projection formulas instantiated on the singleton
result set with ra=0, dec=0, parallax=1 and its emitted point (1, 1, 0). -/
theorem projection_formulas_and_instances_witness :
    ∃ r ∈ [(⟨0, 0, 0, some 1⟩ : CatalogRow)], ∃ p : ℝ,
      r.parallax = some p ∧ 0 < p ∧
      (ProjectedPoint.mk 1 1 0).distance_pc = 1 / p ∧
      (ProjectedPoint.mk 1 1 0).x = (ProjectedPoint.mk 1 1 0).distance_pc *
        Real.cos (degToRad r.dec) * Real.cos (degToRad r.ra) ∧
      (ProjectedPoint.mk 1 1 0).y = (ProjectedPoint.mk 1 1 0).distance_pc *
        Real.cos (degToRad r.dec) * Real.sin (degToRad r.ra) :=
  projection_formulas_and_instances.1 [⟨0, 0, 0, some 1⟩] ⟨1, 1, 0⟩
    (by norm_num [project, keptParallax, projectRow, degToRad])

/-- Claim C2: every emitted projected point has strictly positive (and, the
embedding being exact real arithmetic, finite) distance, and a row with null
or non-positive parallax contributes zero output points and no error. -/
theorem projected_distances_positive_invalid_dropped :
    (∀ rows : List CatalogRow, ∀ pt ∈ project rows, 0 < pt.distance_pc) ∧
    (∀ (r : CatalogRow) (rows : List CatalogRow),
      (r.parallax = none ∨ ∃ p : ℝ, r.parallax = some p ∧ p ≤ 0) →
      project (r :: rows) = project rows) := by
  constructor
  · intro rows pt hpt
    obtain ⟨r, hr, p, hp, h0, rfl⟩ := mem_project hpt
    exact one_div_pos.mpr h0
  · intro r rows hr
    rcases hr with hn | ⟨p, hp, hle⟩
    · simp [project, List.filterMap_cons, keptParallax, hn]
    · simp [project, List.filterMap_cons, keptParallax, hp, not_lt.mpr hle]

/-- Witness for C2: the point emitted for parallax 1 has positive distance,
and a parallax −1 row contributes nothing. -/
theorem projected_distances_positive_invalid_dropped_witness :
    (0 < (ProjectedPoint.mk 1 1 0).distance_pc) ∧
    project [⟨0, 0, 0, some (-1)⟩] = project [] :=
  ⟨projected_distances_positive_invalid_dropped.1 [⟨0, 0, 0, some 1⟩] ⟨1, 1, 0⟩
      (by norm_num [project, keptParallax, projectRow, degToRad]),
    projected_distances_positive_invalid_dropped.2 ⟨0, 0, 0, some (-1)⟩ []
      (Or.inr ⟨-1, rfl, by norm_num⟩)⟩

/-- Claim C3: for positive max_distance_pc the query's threshold is
`min_parallax = 1/max_distance_pc`, the WHERE clause selects exactly the
non-null parallaxes at or above it, and the threshold strictly decreases as
max_distance_pc increases. -/
theorem query_threshold_reciprocal_antitone :
    ∀ m : ℝ, 0 < m →
      (build_query m).min_parallax = 1 / m ∧
      (∀ p : Option ℝ, row_selected (build_query m) p ↔ ∃ v : ℝ, p = some v ∧ 1 / m ≤ v) ∧
      ∀ m2 : ℝ, m < m2 → (build_query m2).min_parallax < (build_query m).min_parallax := by
  intro m hm
  refine ⟨rfl, ?_, ?_⟩
  · intro p
    cases p with
    | none => simp [row_selected]
    | some v => simp [row_selected, build_query]
  · intro m2 hm2
    exact one_div_lt_one_div_of_lt hm hm2

/-- Witness for C3: at max distances 1 and 2 parsecs the thresholds are 1/1
and 1/2, strictly decreasing. -/
theorem query_threshold_reciprocal_antitone_witness :
    (build_query 1).min_parallax = 1 / 1 ∧
    (build_query 2).min_parallax < (build_query 1).min_parallax :=
  ⟨(query_threshold_reciprocal_antitone 1 (by norm_num)).1,
    (query_threshold_reciprocal_antitone 1 (by norm_num)).2.2 2 (by norm_num)⟩

/-- Counterexample to C4 as stated: a one-row result set whose only parallax
is −1 has an empty kept set, yet the pipeline does not return `EmptySample` —
it reaches the attribute mapper, whose zero-size reduction raises (the code's
emptiness check at `star_distance.py:22` looks at the raw result table, not
at the kept set). -/
theorem kept_empty_not_emptySample_counterexample :
    keptRows [⟨0, 0, 0, some (-1)⟩] = [] ∧
    pipeline [⟨0, 0, 0, some (-1)⟩] = EngineResult.fault ∧
    pipeline [⟨0, 0, 0, some (-1)⟩] ≠ EngineResult.emptySample := by
  have h2 : pipeline [⟨0, 0, 0, some (-1)⟩] = EngineResult.fault := by
    norm_num [pipeline, project, keptParallax, map_attributes, List.filterMap]
  refine ⟨by norm_num [keptRows, List.filter], h2, ?_⟩
  rw [h2]
  exact fun h => EngineResult.noConfusion h

/-- Claim C4 as amended: the pipeline returns `EmptySample` exactly when the
result set itself is empty (in which case nothing is rendered); a non-empty
result set whose kept set is empty instead faults in the attribute mapper. -/
theorem emptySample_iff_resultset_empty :
    ∀ rows : List CatalogRow,
      (pipeline rows = EngineResult.emptySample ↔ rows = []) ∧
      (keptRows rows = [] → rows ≠ [] → pipeline rows = EngineResult.fault) := by
  have hproj : ∀ rows : List CatalogRow, keptRows rows = [] → project rows = [] := by
    intro rows h
    rw [List.eq_nil_iff_forall_not_mem]
    intro pt hpt
    obtain ⟨r, hr, p, hp, h0, rfl⟩ := mem_project hpt
    have : r ∈ keptRows rows := by
      simp only [keptRows, List.mem_filter]
      exact ⟨hr, by simp [hp, h0]⟩
    rw [h] at this
    exact List.not_mem_nil r this
  intro rows
  constructor
  · constructor
    · intro h
      by_contra hne
      have hlen : rows.length ≠ 0 := by simpa using hne
      simp only [pipeline, if_neg hlen] at h
      cases hmap : map_attributes (project rows) with
      | none => rw [hmap] at h; exact EngineResult.noConfusion h
      | some vps => rw [hmap] at h; exact EngineResult.noConfusion h
    · intro h
      subst h
      simp [pipeline]
  · intro hkept hne
    have hlen : rows.length ≠ 0 := by simpa using hne
    simp only [pipeline, if_neg hlen, hproj rows hkept, map_attributes]

/-- Witness for C4 (amended): the parallax −1 singleton is non-empty, is not
reported as `EmptySample`, and faults. -/
theorem emptySample_iff_resultset_empty_witness :
    (pipeline [⟨0, 0, 0, some (-1)⟩] = EngineResult.emptySample ↔
      ([(⟨0, 0, 0, some (-1)⟩ : CatalogRow)] : List CatalogRow) = []) ∧
    pipeline [⟨0, 0, 0, some (-1)⟩] = EngineResult.fault :=
  ⟨(emptySample_iff_resultset_empty [⟨0, 0, 0, some (-1)⟩]).1,
    (emptySample_iff_resultset_empty [⟨0, 0, 0, some (-1)⟩]).2
      (by norm_num [keptRows, List.filter]) (by simp)⟩

/-- Claim C5: on a sample with d_max > d_min, every emitted size follows
`(1 - normalized) * (max_size - min_size) + min_size` with min_size = 10 and
max_size = 100, size is monotonically non-increasing in distance, and the
colormap-argument ordering agrees with the size ordering (both are driven by
the same normalized value). -/
theorem star_size_antitone_color_consistent :
    ∀ (pts : List ProjectedPoint) (vps : List VisualPoint),
      map_attributes pts = some vps → sample_min pts < sample_max pts →
      (∀ v1 ∈ vps, ∀ v2 ∈ vps, v1.point.distance_pc ≤ v2.point.distance_pc →
        v2.size ≤ v1.size ∧ v2.colorArg ≤ v1.colorArg ∧
        (v1.size ≤ v2.size ↔ v1.colorArg ≤ v2.colorArg)) ∧
      (∀ v ∈ vps, v.size =
        (1 - normalizedDist (sample_min pts) (sample_max pts) v.point.distance_pc) *
          (max_star_size - min_star_size) + min_star_size) ∧
      min_star_size = 10 ∧ max_star_size = 100 := by
  intro pts vps hmap hlt
  refine ⟨?_, ?_, rfl, rfl⟩
  · intro v1 hv1 v2 hv2 hd
    obtain ⟨hm1, hs1, hc1⟩ := mem_map_attributes hmap hv1
    obtain ⟨hm2, hs2, hc2⟩ := mem_map_attributes hmap hv2
    rw [hs1, hs2, hc1, hc2]
    exact ⟨star_size_anti hlt hd, color_arg_anti hlt hd, star_size_le_iff_color⟩
  · intro v hv
    obtain ⟨_, hs, _⟩ := mem_map_attributes hmap hv
    rw [hs]
    rfl

/-- Witness for C5: on the two-point sample with distances 1 and 2 the nearer
star's size is at least the farther star's, and the colormap arguments are
ordered the same way. -/
theorem star_size_antitone_color_consistent_witness :
    star_size 1 2 2 ≤ star_size 1 2 1 ∧ color_arg 1 2 2 ≤ color_arg 1 2 1 := by
  have hmin : sample_min [⟨1, 1, 0⟩, ⟨2, 2, 0⟩] = 1 := by
    norm_num [sample_min, min_def]
  have hmax : sample_max [⟨1, 1, 0⟩, ⟨2, 2, 0⟩] = 2 := by
    norm_num [sample_max, max_def]
  have hmap : map_attributes [⟨1, 1, 0⟩, ⟨2, 2, 0⟩] =
      some [⟨⟨1, 1, 0⟩, star_size 1 2 1, color_arg 1 2 1⟩,
        ⟨⟨2, 2, 0⟩, star_size 1 2 2, color_arg 1 2 2⟩] := by
    simp [map_attributes, hmin, hmax]
  have h := (star_size_antitone_color_consistent [⟨1, 1, 0⟩, ⟨2, 2, 0⟩] _ hmap
      (by rw [hmin, hmax]; norm_num)).1
      ⟨⟨1, 1, 0⟩, star_size 1 2 1, color_arg 1 2 1⟩ (by simp)
      ⟨⟨2, 2, 0⟩, star_size 1 2 2, color_arg 1 2 2⟩ (by simp) (by norm_num)
  exact ⟨h.1, h.2.1⟩

/-- Claim C6 evaluated against the code: on a one-point sample (so
d_min = d_max = d, here all 1) the code's own formulas compute the
normalization `(d - d_min)/(d_max - d_min) = 0/0`, which under the IEEE
semantics the interpreter actually uses is NaN, so the size is NaN — not the
claimed max_size = 100 — and the colormap argument is NaN — not the claimed 1.
Every intermediate value here is exactly representable, so the `FP` model is
exact. -/
theorem degenerate_sample_size_nan :
    star_sizeF (FP.num 1) (FP.num 1) (FP.num 1) = FP.nan ∧
    color_argF (FP.num 1) (FP.num 1) (FP.num 1) = FP.nan ∧
    star_sizeF (FP.num 1) (FP.num 1) (FP.num 1) ≠ FP.num 100 ∧
    color_argF (FP.num 1) (FP.num 1) (FP.num 1) ≠ FP.num 1 := by
  have h1 : star_sizeF (FP.num 1) (FP.num 1) (FP.num 1) = FP.nan := by
    simp [star_sizeF, normalizedF, FP.sub, FP.div, FP.mul, FP.add]
  have h2 : color_argF (FP.num 1) (FP.num 1) (FP.num 1) = FP.nan := by
    simp [color_argF, normalizedF, FP.sub, FP.div]
  refine ⟨h1, h2, by rw [h1]; exact fun h => FP.noConfusion h,
    by rw [h2]; exact fun h => FP.noConfusion h⟩

/-- Claim C7 evaluated against the code: non-numeric text ("abc") indeed
fails at `float()` before any query exists, but the non-positive input "-5"
is NOT rejected — both entry points parse it and issue a query whose parallax
threshold is negative. -/
theorem negative_input_query_issued :
    script_entry "abc" = none ∧ gui_entry "abc" = none ∧
    (∃ q : QueryDescriptor, script_entry "-5" = some q ∧ q.min_parallax < 0) ∧
    (∃ q : QueryDescriptor, gui_entry "-5" = some q ∧ q.min_parallax < 0) := by
  have habc : parseFloat "abc" = none := by decide
  have h5 : parseFloat "-5" = some (-5) := by decide
  have hpi := Real.pi_pos
  have hneg : lyr_to_pc ((-5 : ℚ) : ℝ) < 0 := by
    simp only [lyr_to_pc, lyr_in_pc]
    push_cast
    nlinarith
  refine ⟨by simp [script_entry, habc], by simp [gui_entry, habc],
    ⟨build_query (lyr_to_pc ((-5 : ℚ) : ℝ)), by simp [script_entry, h5],
      one_div_neg.mpr hneg⟩,
    ⟨gui_build_query (lyr_to_pc ((-5 : ℚ) : ℝ)), by simp [gui_entry, h5],
      one_div_neg.mpr hneg⟩⟩

/-- Claim C8: every emitted point satisfies x² + y² ≤ distance_pc², and for a
kept row with declination in [−90, 90] degrees equality holds exactly when
the declination is 0 (the projection scales by cos(dec)). -/
theorem projected_point_within_distance_circle :
    (∀ rows : List CatalogRow, ∀ pt ∈ project rows,
      pt.x ^ 2 + pt.y ^ 2 ≤ pt.distance_pc ^ 2) ∧
    (∀ (r : CatalogRow) (p : ℝ), r.parallax = some p → 0 < p →
      -90 ≤ r.dec → r.dec ≤ 90 →
      ((projectRow r p).x ^ 2 + (projectRow r p).y ^ 2 = (projectRow r p).distance_pc ^ 2 ↔
        r.dec = 0)) := by
  constructor
  · intro rows pt hpt
    obtain ⟨r, hr, p, hp, h0, rfl⟩ := mem_project hpt
    exact projectRow_sq_le r p
  · intro r p hp h0 h1 h2
    exact projectRow_eq_iff r p h0 h1 h2

/-- Witness for C8: the invariant and the equality criterion instantiated on
the row ra=0, dec=0, parallax=1 and its emitted point. -/
theorem projected_point_within_distance_circle_witness :
    (ProjectedPoint.mk 1 1 0).x ^ 2 + (ProjectedPoint.mk 1 1 0).y ^ 2 ≤
      (ProjectedPoint.mk 1 1 0).distance_pc ^ 2 ∧
    ((projectRow ⟨0, 0, 0, some 1⟩ 1).x ^ 2 + (projectRow ⟨0, 0, 0, some 1⟩ 1).y ^ 2 =
        (projectRow ⟨0, 0, 0, some 1⟩ 1).distance_pc ^ 2 ↔
      (CatalogRow.mk 0 0 0 (some 1)).dec = 0) :=
  ⟨projected_point_within_distance_circle.1 [⟨0, 0, 0, some 1⟩] ⟨1, 1, 0⟩
      (by norm_num [project, keptParallax, projectRow, degToRad]),
    projected_point_within_distance_circle.2 ⟨0, 0, 0, some 1⟩ 1 rfl (by norm_num)
      (by norm_num) (by norm_num)⟩

/-- Counterexample to C9 as stated: the two entry points do NOT build the
same query string — the script's triple-quoted f-string carries one leading
tab per line, the GUI method's carries two, so for the same formatted
threshold the strings differ. -/
theorem query_strings_differ_counterexample :
    script_query_string "0.5" ≠ gui_query_string "0.5" := by
  decide

/-- Claim C9 as amended: the two entry points build queries that agree in
everything but the indentation whitespace retained by the f-string literals,
interpolate the identical threshold `1/max_distance_pc`, and compute
identical distances, coordinates, sizes and colormap arguments (one pipeline
behind two triggers). -/
theorem script_gui_same_pipeline :
    (∀ t : String, stripWS (script_query_string t) = stripWS (gui_query_string t)) ∧
    (∀ m : ℝ, gui_build_query m = build_query m) ∧
    (∀ rows : List CatalogRow, gui_pipeline rows = pipeline rows) ∧
    (∀ s : String, gui_entry s = script_entry s) := by
  refine ⟨?_, fun m => rfl, fun rows => rfl, fun s => rfl⟩
  intro t
  rw [script_query_string, gui_query_string, stripWS_append, stripWS_append,
    stripWS_append, stripWS_append]
  congr 1

/-- Claim C10: a row passing the issued query's predicate
`parallax ≥ 1/max_distance_pc` (max_distance_pc > 0) projects to a point with
distance at most max_distance_pc, squared planar radius at most
max_distance_pc², and both coordinates within the rendered axis bounds
±max_distance_pc. -/
theorem selected_rows_within_axis_bounds :
    ∀ (m : ℝ) (r : CatalogRow) (p : ℝ), 0 < m → r.parallax = some p →
      row_selected (build_query m) r.parallax →
      (projectRow r p).distance_pc ≤ m ∧
      (projectRow r p).x ^ 2 + (projectRow r p).y ^ 2 ≤ m ^ 2 ∧
      |(projectRow r p).x| ≤ axis_bound m ∧ |(projectRow r p).y| ≤ axis_bound m := by
  intro m r p hm hp hsel
  rw [hp] at hsel
  have hsel' : 1 / m ≤ p := hsel
  have h0p : 0 < p := lt_of_lt_of_le (one_div_pos.mpr hm) hsel'
  have hdm : (projectRow r p).distance_pc ≤ m := by
    have h := one_div_le_one_div_of_le (one_div_pos.mpr hm) hsel'
    rwa [one_div_one_div] at h
  have hsq := projectRow_sq_le r p
  have hd0 : 0 ≤ (projectRow r p).distance_pc := le_of_lt (one_div_pos.mpr h0p)
  have hm2 : (projectRow r p).distance_pc ^ 2 ≤ m ^ 2 := pow_le_pow_left₀ hd0 hdm 2
  have hxy : (projectRow r p).x ^ 2 + (projectRow r p).y ^ 2 ≤ m ^ 2 := by linarith
  have hx2 : (projectRow r p).x ^ 2 ≤ m ^ 2 := by nlinarith [sq_nonneg (projectRow r p).y]
  have hy2 : (projectRow r p).y ^ 2 ≤ m ^ 2 := by nlinarith [sq_nonneg (projectRow r p).x]
  refine ⟨hdm, hxy, ?_, ?_⟩
  · show |(projectRow r p).x| ≤ m
    rw [abs_le]
    constructor <;> nlinarith
  · show |(projectRow r p).y| ≤ m
    rw [abs_le]
    constructor <;> nlinarith

/-- Witness for C10: with max distance 2 pc, the parallax 1 row passes the
query predicate and its point lies within distance 2 and the ±2 axis bounds. -/
theorem selected_rows_within_axis_bounds_witness :
    (projectRow ⟨0, 0, 0, some 1⟩ 1).distance_pc ≤ 2 ∧
    (projectRow ⟨0, 0, 0, some 1⟩ 1).x ^ 2 + (projectRow ⟨0, 0, 0, some 1⟩ 1).y ^ 2 ≤ 2 ^ 2 ∧
    |(projectRow ⟨0, 0, 0, some 1⟩ 1).x| ≤ axis_bound 2 ∧
    |(projectRow ⟨0, 0, 0, some 1⟩ 1).y| ≤ axis_bound 2 :=
  selected_rows_within_axis_bounds 2 ⟨0, 0, 0, some 1⟩ 1 (by norm_num) rfl
    (by show (1 : ℝ) / 2 ≤ 1; norm_num)

end StarDistance
